import Mathlib

/-!
Shallow embedding of the Specmatic MCP server process-orchestration core:
staging of spec files, subprocess execution under timeout, JUnit artifact
discovery and parsing with a console-heuristic fallback, and the mock-server
registry. Definitions follow src/src/index.ts (junit helper functions),
src/src/services/test-executor.ts (first revision, whose line numbers the
claims cite) and the MockServerManager service. Filesystem reads, the spawned
subprocess and the XML parser are modelled as explicit inputs: a directory
listing is an Option of a file list (readdir failure gives none), subprocess
behaviour is an event (close with an optional exit code, error, or the
five-minute timer firing first), and a report file on disk is an optional
pre-parsed XML document. Strings are modelled as character lists so that
every operation of the source (includes, split, endsWith, trim) is a
structural recursion a witness can evaluate.
-/

namespace SpecmaticMCP

/-- Strings of the embedded program, as character lists. -/
abbrev Str := List Char

/-- Conversion of a Lean string literal into the embedded string type. -/
def str (s : String) : Str := s.data

/-- Decimal rendering of a natural number, used for template interpolation. -/
def natStr (n : Nat) : Str := (Nat.repr n).data

/-- Decimal rendering of an integer, used for template interpolation. -/
def intStr (i : Int) : Str := (Int.repr i).data

/-- JS String.prototype.includes: the pattern occurs as a contiguous
substring. -/
def jsIncludes (s pat : Str) : Bool :=
  s.tails.any (fun t => pat.isPrefixOf t)

/-- JS String.prototype.endsWith. -/
def jsEndsWith (s post : Str) : Bool :=
  post.isSuffixOf s

/-- JS String.prototype.split with the newline separator used by the
console parsers. -/
def splitOnNl (s : Str) : List Str :=
  match s with
  | [] => [[]]
  | c :: rest =>
      match splitOnNl rest with
      | [] => [[]]
      | l :: ls => if c = '\n' then [] :: l :: ls else (c :: l) :: ls

/-- JS String.prototype.trim: strip leading and trailing whitespace. -/
def trimStr (s : Str) : Str :=
  ((s.dropWhile Char.isWhitespace).reverse.dropWhile Char.isWhitespace).reverse

/-- Status of a test case, mirroring the PASSED, FAILED, SKIPPED string union. -/
inductive CaseStatus where
  | PASSED
  | FAILED
  | SKIPPED
deriving DecidableEq

/-- One case of a parsed JUnit suite. The failureMessage and errorMessage
fields are the message extracted from a failure or error child element. -/
structure JunitTestCase where
  name : Str
  classname : Str
  status : CaseStatus
  failureMessage : Option Str := none
  errorMessage : Option Str := none
deriving DecidableEq

/-- A parsed JUnit suite: the declared counts of the suite element together
with its case list, mirroring the JunitTestSuite interface. -/
structure JunitTestSuite where
  name : Str
  tests : Int
  failures : Int
  errors : Int
  skipped : Int
  testcases : List JunitTestCase
deriving DecidableEq

/-- One entry of the testDetails list of a summary. The source field is named
scenario; it is renamed scenarioName here. -/
structure TestDetail where
  scenarioName : Str
  status : CaseStatus
  message : Option Str := none
deriving DecidableEq

/-- The summary block of a test result: totalTests, passed, failed and the
per-case details. -/
structure TestSummary where
  totalTests : Int
  passed : Int
  failed : Int
  testDetails : List TestDetail
deriving DecidableEq

/-- Raw outcome of one engine subprocess execution, mirroring the
TestExecutionResult interface. -/
structure TestExecutionResult where
  stdout : Str
  stderr : Str
  exitCode : Int
  junitFiles : List Str := []
  junitReportPath : Option Str := none
  hostJunitReportPath : Option Str := none
deriving DecidableEq

/-- The normalized report returned to the caller, mirroring the
SpecmaticTestResult interface. -/
structure SpecmaticTestResult where
  success : Bool
  output : Str
  errors : Str
  exitCode : Int
  junitReportPath : Option Str := none
  hostJunitReportPath : Option Str := none
  junitParsedData : Option JunitTestSuite := none
  summary : Option TestSummary := none
deriving DecidableEq

/-- listXmlFiles of src/src/index.ts: filter a directory listing down to the
names ending in .xml; a failed readdir (modelled as none) yields the empty
list. -/
def listXmlFiles (dirListing : Option (List Str)) : List Str :=
  match dirListing with
  | none => []
  | some files => files.filter (fun f => jsEndsWith f (str ".xml"))

/-- findNewJunitFiles of src/src/index.ts: the files of the after listing
that are absent from the before snapshot. -/
def findNewJunitFiles (dirListing : Option (List Str)) (filesBefore : List Str) : List Str :=
  (listXmlFiles dirListing).filter (fun f => !(filesBefore.contains f))

/-- What the XML layer can hand back for a report file: the parser threw, the
parse produced no testsuite element, or a first suite was found. -/
inductive XmlDoc where
  | malformed
  | noSuite
  | suite (s : JunitTestSuite)
deriving DecidableEq

/-- parseJunitXmlFile of src/src/index.ts: a missing or unreadable file, a
parser exception and a document without a testsuite element all yield null;
a well-formed document yields its first suite. -/
def parseJunitXmlFile (doc : Option XmlDoc) : Option JunitTestSuite :=
  match doc with
  | none => none
  | some XmlDoc.malformed => none
  | some XmlDoc.noSuite => none
  | some (XmlDoc.suite s) => some s

/-- JS a || b on two optional strings, where an empty string on the left is
falsy: used for failure message or error message selection. -/
def jsOrOptStr (a b : Option Str) : Option Str :=
  match a with
  | some s => if s = [] then b else some s
  | none => b

/-- The summary computed from parsed JUnit data in parseSpecmaticOutput:
passed is tests minus failures minus errors, failed is failures plus errors,
and each case becomes a detail entry whose status collapses SKIPPED to
PASSED. -/
def junitSummary (d : JunitTestSuite) : TestSummary :=
  { totalTests := d.tests
    passed := d.tests - d.failures - d.errors
    failed := d.failures + d.errors
    testDetails := d.testcases.map (fun tc =>
      { scenarioName := tc.classname ++ str "." ++ tc.name
        status := if tc.status = CaseStatus.FAILED then CaseStatus.FAILED else CaseStatus.PASSED
        message := jsOrOptStr tc.failureMessage tc.errorMessage }) }

/-- Classification of one stdout line in the console fallback: the PASSED
check runs first, so a line holding both tokens counts as PASSED. -/
def fallbackStatus (line : Str) : CaseStatus :=
  if jsIncludes line (str "PASSED") then CaseStatus.PASSED else CaseStatus.FAILED

/-- Detail entry the console fallback builds for one matched line. -/
def fallbackDetail (line : Str) : TestDetail :=
  { scenarioName := trimStr line
    status := fallbackStatus line
    message := if fallbackStatus line = CaseStatus.FAILED then some line else none }

/-- The predicate selecting the stdout lines the console fallback treats as
test cases. -/
def fallbackMatches (line : Str) : Bool :=
  jsIncludes line (str "PASSED") || jsIncludes line (str "FAILED")

/-- The console-heuristic fallback of parseSpecmaticOutput: every stdout line
holding a PASSED or FAILED token becomes one test case; totals count the
matched lines; no matched line yields no summary at all. -/
def consoleSummary (stdout : Str) : Option TestSummary :=
  let lines := splitOnNl stdout
  let matched := lines.filter fallbackMatches
  let totalTests : Int := matched.length
  let passed : Int := (matched.filter (fun l => jsIncludes l (str "PASSED"))).length
  let failed : Int := (matched.filter (fun l => !(jsIncludes l (str "PASSED")))).length
  if 0 < totalTests then
    some { totalTests := totalTests
           passed := passed
           failed := failed
           testDetails := matched.map fallbackDetail }
  else
    none

/-- parseSpecmaticOutput of test-executor.ts: success is exit code equal to
zero; if a report path was discovered its parse result (or null) is attached
and, when non-null, supplies the summary; otherwise the console fallback
runs. The whole function is total: parse failure never escapes. -/
def parseSpecmaticOutput (fileOf : Str → Option XmlDoc) (result : TestExecutionResult) :
    SpecmaticTestResult :=
  let junitData : Option JunitTestSuite :=
    match result.junitReportPath with
    | none => none
    | some p => parseJunitXmlFile (fileOf p)
  { success := result.exitCode == 0
    output := result.stdout
    errors := result.stderr
    exitCode := result.exitCode
    junitReportPath := result.junitReportPath
    hostJunitReportPath := result.hostJunitReportPath
    junitParsedData := junitData
    summary :=
      match junitData with
      | some d => some (junitSummary d)
      | none => consoleSummary result.stdout }

/-- The validated input of a contract or resiliency test run, mirroring
RunContractTestInput (specFormat is yaml or json). -/
structure RunContractTestInput where
  openApiSpec : Str
  apiBaseUrl : Str
  specFormat : Str
deriving DecidableEq

/-- How the spawned engine subprocess terminates from the point of view of
executeSpecmaticTest: a close event carrying an exit code that may be null, an
error event (spawn failure), or the five-minute timer firing before either. -/
inductive ProcEvent where
  | closed (code : Option Int)
  | errored (msg : Str)
  | timedOut
deriving DecidableEq

/-- Everything outside the program that one test-run invocation observes:
the suffix mkdtemp appends to the staging directory name, the report
directory listings before the spawn and at the close event, the streamed
stdout and stderr, the subprocess termination event, the report files on
disk, and whether the Docker heuristics fire. -/
structure World where
  tmpSuffix : Str
  dirBefore : Option (List Str)
  dirAfter : Option (List Str)
  stdoutData : Str
  stderrData : Str
  event : ProcEvent
  fileOf : Str → Option XmlDoc
  inDocker : Bool

/-- getReportsDirectory of test-executor.ts. -/
def reportsDirectory (inDocker : Bool) : Str :=
  if inDocker then str "/app/reports" else str "./build/reports/specmatic"

/-- path.join modelled as concatenation with a single separator (no
normalization of dot segments). -/
def pathJoin (a b : Str) : Str :=
  a ++ str "/" ++ b

/-- The host-visible report path chosen in the close handler. -/
def hostReportPathFor (inDocker : Bool) (f : Str) : Str :=
  if inDocker then str "./build/reports/specmatic/" ++ f
  else pathJoin (str "./build/reports/specmatic") f

/-- What one call of executeSpecmaticTest did: whether the timeout path sent
SIGTERM, the argument vector and extra environment entries handed to spawn,
and the settled promise (ok on a close event, error on spawn failure or
timeout). -/
structure ExecOutcome where
  sentSigterm : Bool
  args : List Str
  envExtra : List (Str × Str)
  outcome : Except Str TestExecutionResult

/-- executeSpecmaticTest of test-executor.ts: snapshot the report directory,
spawn the engine with test arguments, and settle according to the subprocess
event. A close event resolves with the captured streams, the exit code
defaulted to zero when null, and the report files discovered by diffing the
directory; an error event rejects; the five-minute timer kills the process
with SIGTERM and rejects with the timeout message. -/
def executeSpecmaticTest (specFile apiBaseUrl : Str) (envExtra : List (Str × Str))
    (w : World) : ExecOutcome :=
  let reportsDir := reportsDirectory w.inDocker
  let filesBefore := listXmlFiles w.dirBefore
  let args := [str "test", specFile, str "--testBaseURL=" ++ apiBaseUrl,
               str "--junitReportDir=" ++ reportsDir]
  match w.event with
  | ProcEvent.errored msg =>
      { sentSigterm := false, args := args, envExtra := envExtra, outcome := Except.error msg }
  | ProcEvent.timedOut =>
      { sentSigterm := true, args := args, envExtra := envExtra
        outcome := Except.error (str "Test execution timeout after 5 minutes") }
  | ProcEvent.closed code =>
      let newFiles := findNewJunitFiles w.dirAfter filesBefore
      let paths : Option Str × Option Str :=
        match newFiles with
        | [] => (none, none)
        | f :: _ => (some (pathJoin reportsDir f), some (hostReportPathFor w.inDocker f))
      { sentSigterm := false, args := args, envExtra := envExtra
        outcome := Except.ok
          { stdout := w.stdoutData
            stderr := w.stderrData
            exitCode := code.getD 0
            junitFiles := newFiles
            junitReportPath := paths.1
            hostJunitReportPath := paths.2 } }

/-- The staging directory runSpecmaticTest creates under the system temp
directory: the leading part depends on the test mode and mkdtemp appends a
unique suffix. -/
def stagingDirName (resiliency : Bool) (w : World) : Str :=
  str "/tmp/" ++ (if resiliency then str "specmatic-resiliency-test-" else str "specmatic-test-")
    ++ w.tmpSuffix

/-- The extra environment entries merged over the inherited environment
before the spawn: resiliency mode sets the generative-tests toggle. -/
def envFor (resiliency : Bool) : List (Str × Str) :=
  if resiliency then [(str "SPECMATIC_GENERATIVE_TESTS", str "true")] else []

/-- What one call of runSpecmaticTest produced: the normalized result, the
spawn profile, and the set of staging directories existing at the end of the
invocation given the set existing at its start. -/
structure RunOutcome where
  result : SpecmaticTestResult
  exec : ExecOutcome
  tempDirs : List Str

/-- runSpecmaticTest of test-executor.ts: create a fresh staging directory,
write the spec into it, execute the engine, and parse the outcome; any
rejection is caught and turned into a failure result with exit code one and
empty output; the finally block always removes the staging directory. -/
def runSpecmaticTest (input : RunContractTestInput) (resiliency : Bool) (w : World)
    (tempDirs0 : List Str) : RunOutcome :=
  let tempDir := stagingDirName resiliency w
  let specFile := tempDir ++ str "/spec." ++ input.specFormat
  let tempDirs1 := tempDirs0 ++ [tempDir]
  let ex := executeSpecmaticTest specFile input.apiBaseUrl (envFor resiliency) w
  { result :=
      match ex.outcome with
      | Except.ok r => parseSpecmaticOutput w.fileOf r
      | Except.error msg =>
          { success := false, output := [], errors := msg, exitCode := 1 }
    exec := ex
    tempDirs := tempDirs1.filter (fun d => d ≠ tempDir) }

/-- runContractTest: the contract-test mode of runSpecmaticTest. -/
def runContractTest (input : RunContractTestInput) (w : World) (tempDirs0 : List Str) :
    RunOutcome :=
  runSpecmaticTest input false w tempDirs0

/-- runResiliencyTest: the resiliency mode of runSpecmaticTest. -/
def runResiliencyTest (input : RunContractTestInput) (w : World) (tempDirs0 : List Str) :
    RunOutcome :=
  runSpecmaticTest input true w tempDirs0

/-- The value stored per port in the runningMockServers map. -/
structure MockServerInfo where
  pid : Int
  specFile : Str
  url : Str
deriving DecidableEq

/-- The runningMockServers map: a JS Map keyed by port, modelled as an
insertion-ordered association list. -/
abbrev MockRegistry := List (Nat × MockServerInfo)

/-- Map.has on the registry. -/
def regHas (reg : MockRegistry) (port : Nat) : Bool :=
  reg.any (fun e => e.1 == port)

/-- Map.set on the registry: replace the entry of an existing key in place,
otherwise append. -/
def regSet (reg : MockRegistry) (port : Nat) (v : MockServerInfo) : MockRegistry :=
  if regHas reg port then reg.map (fun e => if e.1 == port then (port, v) else e)
  else reg ++ [(port, v)]

/-- The result record of a mock-server management call, mirroring
MockServerResult without the list snapshot. -/
structure MockServerResult where
  success : Bool
  command : Str
  url : Option Str := none
  port : Option Nat := none
  pid : Option Int := none
  message : Str
  errors : Option Str := none
deriving DecidableEq

/-- How the stub subprocess behaves during the startup-confirmation window of
executeMockServer: still alive when the grace timer fires, already killed
when it fires, an error event first, or an exit event first. -/
inductive MockSpawnOutcome where
  | startedAlive (pid : Int)
  | startedKilled (stderrSoFar : Str)
  | spawnError (msg : Str)
  | exitedEarly (code : Option Int) (stderrSoFar : Str)
deriving DecidableEq

/-- JS template interpolation of a number that may be null. -/
def jsCodeStr (code : Option Int) : Str :=
  match code with
  | none => str "null"
  | some n => intStr n

/-- executeMockServer of the MockServerManager: resolve with the process
when the grace timer finds it alive, otherwise with an error carrying the
captured stderr. -/
def executeMockServer (o : MockSpawnOutcome) : Except Str Int :=
  match o with
  | MockSpawnOutcome.startedAlive pid => Except.ok pid
  | MockSpawnOutcome.startedKilled stderrSoFar =>
      Except.error (if stderrSoFar = [] then str "Process was killed during startup" else stderrSoFar)
  | MockSpawnOutcome.spawnError msg => Except.error msg
  | MockSpawnOutcome.exitedEarly code stderrSoFar =>
      Except.error (str "Process exited with code " ++ jsCodeStr code ++ str ": "
        ++ (if trimStr stderrSoFar = [] then str "No error details" else trimStr stderrSoFar))

/-- The start-command input of manage mock server after validation. -/
structure ManageMockStartInput where
  openApiSpec : Str
  port : Nat
  specFormat : Str
deriving DecidableEq

/-- What one call of startMockServer did: the result record, the registry
afterwards, the staging directories existing at the end given those at the
start, and whether a stub subprocess was spawned at all. -/
structure MockStartOutcome where
  res : MockServerResult
  registry : MockRegistry
  tempDirs : List Str
  spawned : Bool

/-- startMockServer of the MockServerManager: mkdtemp runs first, then the
port-conflict check returns early with no spawn and no registry change; on a
successful spawn the handle is registered under the port; on a failed spawn
the registry is left alone. No path removes the staging directory. -/
def startMockServer (reg : MockRegistry) (input : ManageMockStartInput) (tmpSuffix : Str)
    (spawnBehaviour : MockSpawnOutcome) (tempDirs0 : List Str) : MockStartOutcome :=
  let tempDir := str "/tmp/specmatic-mock-" ++ tmpSuffix
  let specFile := tempDir ++ str "/spec." ++ input.specFormat
  let tempDirs1 := tempDirs0 ++ [tempDir]
  if regHas reg input.port then
    { res :=
        { success := false
          command := str "start"
          port := some input.port
          message := str "Port " ++ natStr input.port
            ++ str " is already in use by another mock server" }
      registry := reg
      tempDirs := tempDirs1
      spawned := false }
  else
    match executeMockServer spawnBehaviour with
    | Except.ok pid =>
        { res :=
            { success := true
              command := str "start"
              url := some (str "http://localhost:" ++ natStr input.port)
              port := some input.port
              pid := some pid
              message := str "Mock server started successfully on port " ++ natStr input.port }
          registry := regSet reg input.port
            { pid := pid, specFile := specFile
              url := str "http://localhost:" ++ natStr input.port }
          tempDirs := tempDirs1
          spawned := true }
    | Except.error e =>
        { res :=
            { success := false
              command := str "start"
              port := some input.port
              message := str "Failed to start mock server"
              errors := some e }
          registry := reg
          tempDirs := tempDirs1
          spawned := true }

/-!
Concrete fixtures used by counterexamples and witnesses.
-/

/-- A sample contract-test input. -/
def sampleInput : RunContractTestInput :=
  { openApiSpec := str "openapi: 3.0.0", apiBaseUrl := str "http://localhost:8080"
    specFormat := str "yaml" }

/-- A world in which the engine crashes with exit code one before writing any
report file, printing only a stack trace with no pass or fail token. -/
def crashWorld : World :=
  { tmpSuffix := str "c0", dirBefore := some [], dirAfter := some []
    stdoutData := str "Exception in thread main", stderrData := str "stack trace"
    event := ProcEvent.closed (some 1), fileOf := fun _ => none, inDocker := true }

/-- The crash world with the five-minute timer firing before any close
event. -/
def timeoutWorld : World := { crashWorld with event := ProcEvent.timedOut }

/-- The crash world with a spawn-error event whose message happens to equal
the timeout message. -/
def errorEventWorld : World :=
  { crashWorld with event := ProcEvent.errored (str "Test execution timeout after 5 minutes") }

/-- A registry holding exactly one mock-server handle, on port 9000. -/
def reg0 : MockRegistry :=
  [(9000, { pid := 42, specFile := str "/tmp/specmatic-mock-a0/spec.yaml"
            url := str "http://localhost:9000" })]

/-- A start request for the already-occupied port 9000. -/
def startInput0 : ManageMockStartInput :=
  { openApiSpec := str "openapi: 3.0.0", port := 9000, specFormat := str "yaml" }

/-- A suite whose declared counts include one skipped case. -/
def skippedSuite : JunitTestSuite :=
  { name := str "suite", tests := 3, failures := 1, errors := 0, skipped := 1, testcases := [] }

/-- A report directory whose discovered file parses to the suite with a
skipped case. -/
def reportFs : Str → Option XmlDoc := fun _ => some (XmlDoc.suite skippedSuite)

/-- An execution outcome that discovered a report file. -/
def reportExecResult : TestExecutionResult :=
  { stdout := [], stderr := [], exitCode := 1
    junitReportPath := some (str "/app/reports/r.xml") }

/-- A report directory whose discovered file is malformed XML. -/
def malformedFs : Str → Option XmlDoc := fun _ => some XmlDoc.malformed

/-- An execution outcome with a discovered report path and one FAILED line on
stdout. -/
def crashExecResult : TestExecutionResult :=
  { stdout := str "a FAILED", stderr := [], exitCode := 1
    junitReportPath := some (str "/app/reports/r.xml") }

/-- A stdout sample for the console fallback: one line holding both tokens,
one unmatched line, one FAILED line. -/
def fallbackSample : Str := str "a PASSED FAILED\nmid\nb FAILED"

/-- The summary the console fallback computes for fallbackSample. -/
def fallbackSampleSummary : TestSummary :=
  { totalTests := 2, passed := 1, failed := 1
    testDetails :=
      [ { scenarioName := str "a PASSED FAILED", status := CaseStatus.PASSED, message := none }
      , { scenarioName := str "b FAILED", status := CaseStatus.FAILED
          message := some (str "b FAILED") } ] }

/-!
Helper lemmas shared by the claim theorems.
-/

/-- Splitting a list by a Boolean predicate partitions its length. -/
theorem filter_length_partition (p : Str → Bool) (l : List Str) :
    ((l.filter p).length : Int) + ((l.filter (fun x => !(p x))).length : Int)
      = (l.length : Int) := by
  have h := List.length_eq_length_filter_add (l := l) (f := p)
  omega

/-- The console fallback produces a summary exactly when some stdout line
holds a pass or fail token. -/
theorem consoleSummary_isSome_eq (s : Str) :
    (consoleSummary s).isSome = (splitOnNl s).any fallbackMatches := by
  unfold consoleSummary
  cases hany : (splitOnNl s).any fallbackMatches with
  | false =>
      have hnil : (splitOnNl s).filter fallbackMatches = [] := by
        rw [List.filter_eq_nil_iff]
        intro a ha
        have := (List.any_eq_false).mp hany a ha
        simpa using this
      simp [hnil]
  | true =>
      obtain ⟨a, ha, hpa⟩ := List.any_eq_true.mp hany
      have hmem : a ∈ (splitOnNl s).filter fallbackMatches := by
        rw [List.mem_filter]; exact ⟨ha, hpa⟩
      have hpos : 0 < ((splitOnNl s).filter fallbackMatches).length :=
        List.length_pos.mpr (List.ne_nil_of_mem hmem)
      have hposI : (0 : Int) < (((splitOnNl s).filter fallbackMatches).length : Int) := by
        exact_mod_cast hpos
      simp [hposI]

/-!
Claim theorems.
-/

/-- Claim C1: for every execution whose engine subprocess runs to completion (a
close event), the success field of the returned result equals the test of
the captured exit code against zero, regardless of what the parsed summary,
report file or console output contain. Stated both for parseSpecmaticOutput
over an arbitrary raw outcome and for the full run pipeline on a close
event. -/
theorem c1_success_iff_exit_zero :
    (∀ (fileOf : Str → Option XmlDoc) (r : TestExecutionResult),
        (parseSpecmaticOutput fileOf r).success = (r.exitCode == 0)) ∧
    (∀ (input : RunContractTestInput) (resiliency : Bool) (w : World)
        (tempDirs0 : List Str) (c : Option Int),
        (runSpecmaticTest input resiliency { w with event := ProcEvent.closed c }
            tempDirs0).result.success = (c.getD 0 == 0)) := by
  exact ⟨fun _ _ => rfl, fun _ _ _ _ _ => rfl⟩

/-- Claim C9: when the close event delivers a null exit code, the outcome records
exit code zero (code or-defaulted to 0) and the parsed result therefore
reports success. -/
theorem c9_null_exit_code_reports_success (input : RunContractTestInput) (resiliency : Bool)
    (w : World) (tempDirs0 : List Str) :
    (runSpecmaticTest input resiliency { w with event := ProcEvent.closed none }
        tempDirs0).result.exitCode = 0 ∧
    (runSpecmaticTest input resiliency { w with event := ProcEvent.closed none }
        tempDirs0).result.success = true := by
  exact ⟨rfl, rfl⟩

/-- Claim C2 counterexample: a timed-out run is not reported as a distinct outcome
kind at the call boundary. The result of a run whose subprocess never exits
within the ceiling is identical to the result of a run whose spawn merely
errored with the same message text, and it is exactly a failure result with
non-zero exit code one. -/
theorem c2_timeout_not_distinct_counterexample :
    (runSpecmaticTest sampleInput false timeoutWorld []).result
      = (runSpecmaticTest sampleInput false errorEventWorld []).result ∧
    (runSpecmaticTest sampleInput false timeoutWorld []).result.exitCode = 1 ∧
    (runSpecmaticTest sampleInput false timeoutWorld []).result.success = false ∧
    (runSpecmaticTest sampleInput false timeoutWorld []).result.errors
      = str "Test execution timeout after 5 minutes" := by
  decide

/-- Claim C2 amended: when the subprocess has not exited within the five-minute
ceiling it is sent SIGTERM and the execution promise rejects with the
timeout message; the exported call catches that rejection and returns an
ordinary failure result with success false, empty output and exit code one,
distinguishable from other failures only by the message text. -/
theorem c2_timeout_amended (input : RunContractTestInput) (resiliency : Bool) (w : World)
    (tempDirs0 : List Str) (h : w.event = ProcEvent.timedOut) :
    (runSpecmaticTest input resiliency w tempDirs0).exec.sentSigterm = true ∧
    (runSpecmaticTest input resiliency w tempDirs0).exec.outcome
      = Except.error (str "Test execution timeout after 5 minutes") ∧
    (runSpecmaticTest input resiliency w tempDirs0).result
      = { success := false, output := [], errors := str "Test execution timeout after 5 minutes"
          exitCode := 1 } := by
  simp [runSpecmaticTest, executeSpecmaticTest, h]

/-- Claim C2 witness: the amended statement evaluated on the concrete timed-out
world. -/
theorem c2_timeout_witness :
    (runSpecmaticTest sampleInput false timeoutWorld []).exec.sentSigterm = true ∧
    (runSpecmaticTest sampleInput false timeoutWorld []).exec.outcome
      = Except.error (str "Test execution timeout after 5 minutes") ∧
    (runSpecmaticTest sampleInput false timeoutWorld []).result
      = { success := false, output := [], errors := str "Test execution timeout after 5 minutes"
          exitCode := 1 } :=
  c2_timeout_amended sampleInput false timeoutWorld [] rfl

/-- Claim C3: when a handle for the requested port already exists, startMockServer
rejects with the port-conflict message, spawns no engine process, and leaves
the registry untouched: the port still holds exactly one handle and every
other port keeps exactly its previous entries. -/
theorem c3_start_on_occupied_port_rejected (reg : MockRegistry) (input : ManageMockStartInput)
    (tmpSuffix : Str) (spawnBehaviour : MockSpawnOutcome) (tempDirs0 : List Str)
    (hbusy : regHas reg input.port = true)
    (hone : reg.countP (fun e => e.1 == input.port) = 1) :
    (startMockServer reg input tmpSuffix spawnBehaviour tempDirs0).res.success = false ∧
    (startMockServer reg input tmpSuffix spawnBehaviour tempDirs0).res.message
      = str "Port " ++ natStr input.port ++ str " is already in use by another mock server" ∧
    (startMockServer reg input tmpSuffix spawnBehaviour tempDirs0).spawned = false ∧
    (startMockServer reg input tmpSuffix spawnBehaviour tempDirs0).registry = reg ∧
    (startMockServer reg input tmpSuffix spawnBehaviour tempDirs0).registry.countP
      (fun e => e.1 == input.port) = 1 ∧
    (∀ q : Nat, q ≠ input.port →
      (startMockServer reg input tmpSuffix spawnBehaviour tempDirs0).registry.filter
        (fun e => e.1 == q) = reg.filter (fun e => e.1 == q)) := by
  simp [startMockServer, hbusy, hone]

/-- Claim C3 witness: the second start on the occupied port 9000 is rejected and
the registry keeps its single handle; port 8080 is untouched. -/
theorem c3_witness :
    (startMockServer reg0 startInput0 (str "b1") (MockSpawnOutcome.startedAlive 7) []).res.success
      = false ∧
    (startMockServer reg0 startInput0 (str "b1") (MockSpawnOutcome.startedAlive 7) []).spawned
      = false ∧
    (startMockServer reg0 startInput0 (str "b1") (MockSpawnOutcome.startedAlive 7) []).registry
      = reg0 ∧
    (startMockServer reg0 startInput0 (str "b1")
        (MockSpawnOutcome.startedAlive 7) []).registry.countP
      (fun e => e.1 == startInput0.port) = 1 ∧
    (startMockServer reg0 startInput0 (str "b1") (MockSpawnOutcome.startedAlive 7) []).registry.filter
      (fun e => e.1 == 8080) = reg0.filter (fun e => e.1 == 8080) := by
  have h := c3_start_on_occupied_port_rejected reg0 startInput0 (str "b1")
    (MockSpawnOutcome.startedAlive 7) [] (by decide) (by decide)
  exact ⟨h.1, h.2.2.1, h.2.2.2.1, h.2.2.2.2.1, h.2.2.2.2.2 8080 (by decide)⟩

/-- Claim C4: evaluation at a failing input. A mock-server start on an occupied
port creates its staging directory before the conflict check and no path of
startMockServer removes it, so the invocation ends with the directory still
present; a start whose stub exits during the grace window leaks its staging
directory the same way. This contradicts the claim that every exit path of
a mock start removes the staged temporary directory. -/
theorem c4_mock_start_leaks_staging_dir :
    (startMockServer reg0 startInput0 (str "leak1")
        (MockSpawnOutcome.startedAlive 7) []).res.success = false ∧
    (startMockServer reg0 startInput0 (str "leak1")
        (MockSpawnOutcome.startedAlive 7) []).spawned = false ∧
    (startMockServer reg0 startInput0 (str "leak1")
        (MockSpawnOutcome.startedAlive 7) []).tempDirs = [str "/tmp/specmatic-mock-leak1"] ∧
    (startMockServer [] startInput0 (str "leak2")
        (MockSpawnOutcome.exitedEarly (some 1) (str "boom")) []).res.success = false ∧
    (startMockServer [] startInput0 (str "leak2")
        (MockSpawnOutcome.exitedEarly (some 1) (str "boom")) []).tempDirs
      = [str "/tmp/specmatic-mock-leak2"] := by
  decide

/-- Contrast for the test-run path: runSpecmaticTest always removes the
staging directory it created, on every outcome of the execution. -/
theorem runSpecmaticTest_removes_staging_dir (input : RunContractTestInput) (resiliency : Bool)
    (w : World) (tempDirs0 : List Str) :
    (runSpecmaticTest input resiliency w tempDirs0).tempDirs
      = tempDirs0.filter (fun d => d ≠ stagingDirName resiliency w) := by
  simp [runSpecmaticTest]

/-- Claim C5: artifact discovery returns exactly the report-extension files of the
after listing that are absent from the before snapshot: as a set it is the
set difference of the two snapshots, it never contains a file of the before
snapshot, and being a pure function of the pair it returns the same list on
a repeated run. -/
theorem c5_discovery_is_set_difference (dirListing : Option (List Str)) (before : List Str) :
    (∀ f : Str, f ∈ findNewJunitFiles dirListing before
        ↔ (f ∈ listXmlFiles dirListing ∧ f ∉ before)) ∧
    (findNewJunitFiles dirListing before).toFinset
      = (listXmlFiles dirListing).toFinset \ before.toFinset ∧
    findNewJunitFiles dirListing before = findNewJunitFiles dirListing before := by
  refine ⟨?_, ?_, rfl⟩
  · intro f
    simp [findNewJunitFiles, List.mem_filter]
  · ext f
    simp [findNewJunitFiles, List.mem_filter]

/-- Claim C6 counterexample: an engine crash that writes no report file and prints
no pass or fail token returns success false — but with no summary at all,
refuting the claim that such a crash still yields a summary derived from
token lines. -/
theorem c6_crash_without_summary_counterexample :
    (runSpecmaticTest sampleInput false crashWorld []).result.success = false ∧
    (runSpecmaticTest sampleInput false crashWorld []).result.junitReportPath = none ∧
    (runSpecmaticTest sampleInput false crashWorld []).result.summary = none := by
  decide

/-- Claim C6 amended: a missing or unparseable report file is non-fatal — the call
still returns a result whose success tracks the exit code, with no parsed
report attached, and the summary comes from the console fallback; a summary
is present exactly when some stdout line holds a pass or fail token. -/
theorem c6_parse_failure_nonfatal_amended (fileOf : Str → Option XmlDoc)
    (r : TestExecutionResult)
    (h : ∀ p, r.junitReportPath = some p → parseJunitXmlFile (fileOf p) = none) :
    (parseSpecmaticOutput fileOf r).success = (r.exitCode == 0) ∧
    (parseSpecmaticOutput fileOf r).junitParsedData = none ∧
    (parseSpecmaticOutput fileOf r).summary = consoleSummary r.stdout ∧
    ((parseSpecmaticOutput fileOf r).summary).isSome
      = (splitOnNl r.stdout).any fallbackMatches := by
  have hj : (match r.junitReportPath with
      | none => none
      | some p => parseJunitXmlFile (fileOf p)) = (none : Option JunitTestSuite) := by
    cases hrp : r.junitReportPath with
    | none => rfl
    | some p => exact h p hrp
  refine ⟨rfl, ?_, ?_, ?_⟩
  · show (match r.junitReportPath with
      | none => none
      | some p => parseJunitXmlFile (fileOf p)) = (none : Option JunitTestSuite)
    exact hj
  · show (match (match r.junitReportPath with
        | none => none
        | some p => parseJunitXmlFile (fileOf p)) with
      | some d => some (junitSummary d)
      | none => consoleSummary r.stdout) = consoleSummary r.stdout
    rw [hj]
  · show (Option.isSome (match (match r.junitReportPath with
        | none => none
        | some p => parseJunitXmlFile (fileOf p)) with
      | some d => some (junitSummary d)
      | none => consoleSummary r.stdout)) = (splitOnNl r.stdout).any fallbackMatches
    rw [hj]
    exact consoleSummary_isSome_eq r.stdout

/-- Claim C6 witness: the amended statement evaluated on a malformed report file
and a crash whose stdout holds one FAILED line. -/
theorem c6_witness :
    (parseSpecmaticOutput malformedFs crashExecResult).success
      = (crashExecResult.exitCode == 0) ∧
    (parseSpecmaticOutput malformedFs crashExecResult).junitParsedData = none ∧
    (parseSpecmaticOutput malformedFs crashExecResult).summary
      = consoleSummary crashExecResult.stdout ∧
    ((parseSpecmaticOutput malformedFs crashExecResult).summary).isSome
      = (splitOnNl crashExecResult.stdout).any fallbackMatches :=
  c6_parse_failure_nonfatal_amended malformedFs crashExecResult (fun _ _ => rfl)

/-- Claim C7 counterexample: a parsed report declaring one skipped case yields a
summary with totalTests three, passed two and failed one, so the claimed
identity totalTests equals passed plus failed plus skipped fails, as does
the claimed definition of passed as total minus failed minus skipped. -/
theorem c7_skipped_count_counterexample :
    (parseSpecmaticOutput reportFs reportExecResult).junitParsedData = some skippedSuite ∧
    (parseSpecmaticOutput reportFs reportExecResult).summary
      = some (junitSummary skippedSuite) ∧
    ¬ ((junitSummary skippedSuite).totalTests
        = (junitSummary skippedSuite).passed + (junitSummary skippedSuite).failed
          + skippedSuite.skipped) ∧
    ¬ ((junitSummary skippedSuite).passed
        = (junitSummary skippedSuite).totalTests - (junitSummary skippedSuite).failed
          - skippedSuite.skipped) := by
  decide

/-- Claim C7 amended: for every summary produced from a parsed report file, the
counts satisfy totalTests equal to passed plus failed, with passed defined
as the declared total minus failures minus errors and failed as failures
plus errors; the declared skipped count is not subtracted. -/
theorem c7_counts_amended (fileOf : Str → Option XmlDoc) (r : TestExecutionResult)
    (d : JunitTestSuite)
    (h : (parseSpecmaticOutput fileOf r).junitParsedData = some d) :
    (parseSpecmaticOutput fileOf r).summary = some (junitSummary d) ∧
    (junitSummary d).totalTests = (junitSummary d).passed + (junitSummary d).failed ∧
    (junitSummary d).passed = d.tests - d.failures - d.errors ∧
    (junitSummary d).failed = d.failures + d.errors := by
  have hj : (match r.junitReportPath with
      | none => none
      | some p => parseJunitXmlFile (fileOf p)) = some d := h
  refine ⟨?_, ?_, rfl, rfl⟩
  · show (match (match r.junitReportPath with
        | none => none
        | some p => parseJunitXmlFile (fileOf p)) with
      | some d => some (junitSummary d)
      | none => consoleSummary r.stdout) = some (junitSummary d)
    rw [hj]
  · show d.tests = d.tests - d.failures - d.errors + (d.failures + d.errors)
    omega

/-- Claim C7 witness: the amended statement evaluated on the suite with a skipped
case. -/
theorem c7_witness :
    (parseSpecmaticOutput reportFs reportExecResult).summary
      = some (junitSummary skippedSuite) ∧
    (junitSummary skippedSuite).totalTests
      = (junitSummary skippedSuite).passed + (junitSummary skippedSuite).failed ∧
    (junitSummary skippedSuite).passed
      = skippedSuite.tests - skippedSuite.failures - skippedSuite.errors ∧
    (junitSummary skippedSuite).failed = skippedSuite.failures + skippedSuite.errors :=
  c7_counts_amended reportFs reportExecResult skippedSuite (by decide)

/-- Claim C8: the resiliency run differs from the contract run only in the extra
environment entry set before the spawn: for the same input and the same
subprocess behaviour the two runs return equal results through the same
staging, execution, discovery and parsing steps, spawn with the same
argument shape (only the staged file path differs by its directory), and
the resiliency run alone carries the generative-tests toggle. -/
theorem c8_resiliency_differs_only_in_env (input : RunContractTestInput) (w : World)
    (tempDirs0 : List Str) :
    (runSpecmaticTest input true w tempDirs0).result
      = (runSpecmaticTest input false w tempDirs0).result ∧
    (runSpecmaticTest input true w tempDirs0).exec.envExtra
      = [(str "SPECMATIC_GENERATIVE_TESTS", str "true")] ∧
    (runSpecmaticTest input false w tempDirs0).exec.envExtra = [] ∧
    (runSpecmaticTest input true w tempDirs0).exec.args
      = [str "test", stagingDirName true w ++ str "/spec." ++ input.specFormat,
         str "--testBaseURL=" ++ input.apiBaseUrl,
         str "--junitReportDir=" ++ reportsDirectory w.inDocker] ∧
    (runSpecmaticTest input false w tempDirs0).exec.args
      = [str "test", stagingDirName false w ++ str "/spec." ++ input.specFormat,
         str "--testBaseURL=" ++ input.apiBaseUrl,
         str "--junitReportDir=" ++ reportsDirectory w.inDocker] := by
  obtain ⟨suf, db, da, so, se, ev, fo, dk⟩ := w
  cases ev <;> exact ⟨rfl, rfl, rfl, rfl, rfl⟩

/-- Claim C10: whenever the console fallback produces a summary, totalTests counts
exactly the stdout lines holding a pass or fail token and equals passed plus
failed, the details are those lines in order, and a line holding both tokens
is classified PASSED because the PASSED check runs first. -/
theorem c10_fallback_passed_precedence (stdout : Str) (s : TestSummary)
    (h : consoleSummary stdout = some s) :
    s.totalTests = (((splitOnNl stdout).filter fallbackMatches).length : Int) ∧
    s.totalTests = s.passed + s.failed ∧
    s.testDetails = ((splitOnNl stdout).filter fallbackMatches).map fallbackDetail ∧
    (∀ l : Str, jsIncludes l (str "PASSED") = true → jsIncludes l (str "FAILED") = true →
      fallbackStatus l = CaseStatus.PASSED) := by
  simp only [consoleSummary] at h
  split at h
  case isTrue hpos =>
    have hs : s = { totalTests := (((splitOnNl stdout).filter fallbackMatches).length : Int)
                    passed := ((((splitOnNl stdout).filter fallbackMatches).filter
                      (fun l => jsIncludes l (str "PASSED"))).length : Int)
                    failed := ((((splitOnNl stdout).filter fallbackMatches).filter
                      (fun l => !(jsIncludes l (str "PASSED")))).length : Int)
                    testDetails := ((splitOnNl stdout).filter fallbackMatches).map
                      fallbackDetail } := by
      exact (Option.some.injEq _ _).mp h.symm
    subst hs
    refine ⟨rfl, ?_, rfl, ?_⟩
    · exact (filter_length_partition (fun l => jsIncludes l (str "PASSED"))
        ((splitOnNl stdout).filter fallbackMatches)).symm
    · intro l h1 _
      simp [fallbackStatus, h1]
  case isFalse hpos =>
    exact absurd h (by simp)

/-- C10 witness: the theorem evaluated on the stdout sample whose first line
holds both tokens. -/
theorem c10_witness :
    fallbackSampleSummary.totalTests = fallbackSampleSummary.passed + fallbackSampleSummary.failed ∧
    fallbackStatus (str "a PASSED FAILED") = CaseStatus.PASSED :=
  ⟨(c10_fallback_passed_precedence fallbackSample fallbackSampleSummary (by decide)).2.1,
   (c10_fallback_passed_precedence fallbackSample fallbackSampleSummary (by decide)).2.2.2
     (str "a PASSED FAILED") (by decide) (by decide)⟩

end SpecmaticMCP
